import Mathlib

/-
Verification of the Spark SQL vectorized comparison kernel
(velox/functions/sparksql/Comparisons.cpp).

The embedding models:
  * the runtime type-kind tag and full types (`TypeKind`, `VType`);
  * decoded argument columns with their shape classification
    (identity / constant / generic mapping), as exposed by `DecodedVector`;
  * the kernel `ComparisonFunction.apply`, which fills a flat boolean
    result over the selected rows, choosing among four execution paths
    based on the two arguments' shapes;
  * kernel construction `makeImpl` with its argument-count check, full
    type-equality check, and the explicit switch over supported kinds,
    together with the five per-operator entry points.

Fallible construction is modelled with `Except`; the result buffer is a
total function `Nat → Bool` whose pre-call contents are an arbitrary
parameter (the contents after `ensureWritable`, about which nothing is
assumed).
-/

namespace Velox

/-- Runtime scalar/complex type-kind tag. The twelve kinds named in the
switch of `makeImpl` appear verbatim; the kind enumeration itself lives in
`velox/type/Type.h`, which is not among the provided sources, so the extra
unsupported kinds here are modelled from the spec's statement that kinds
outside the enumerated allow-list exist and are rejected. -/
inductive TypeKind where
  | BOOLEAN
  | TINYINT
  | SMALLINT
  | INTEGER
  | BIGINT
  | HUGEINT
  | REAL
  | DOUBLE
  | VARCHAR
  | VARBINARY
  | TIMESTAMP
  | DATE
  | INTERVAL_DAY_TIME
  | ARRAY
  | MAP
  | ROW
  | UNKNOWN
  deriving DecidableEq, Repr

/-- Printable name of a kind, as interpolated into the VELOX_NYI message. -/
def TypeKind.name : TypeKind → String
  | .BOOLEAN => "BOOLEAN"
  | .TINYINT => "TINYINT"
  | .SMALLINT => "SMALLINT"
  | .INTEGER => "INTEGER"
  | .BIGINT => "BIGINT"
  | .HUGEINT => "HUGEINT"
  | .REAL => "REAL"
  | .DOUBLE => "DOUBLE"
  | .VARCHAR => "VARCHAR"
  | .VARBINARY => "VARBINARY"
  | .TIMESTAMP => "TIMESTAMP"
  | .DATE => "DATE"
  | .INTERVAL_DAY_TIME => "INTERVAL DAY TO SECOND"
  | .ARRAY => "ARRAY"
  | .MAP => "MAP"
  | .ROW => "ROW"
  | .UNKNOWN => "UNKNOWN"

/-- A full type: `*args[i].type == *args[0].type` in `makeImpl` compares
types for full structural equality, not merely their kind tag, so types
with children are modelled so that two distinct types can share a kind. -/
inductive VType where
  | scalar (k : TypeKind)
  | array (elem : VType)
  | mapOf (key val : VType)
  deriving DecidableEq, Repr

/-- The kind tag of a full type (`type->kind()`). -/
def VType.kind : VType → TypeKind
  | .scalar k => k
  | .array _ => .ARRAY
  | .mapOf _ _ => .MAP

/-- Shape classification of a decoded argument column, as exposed by
`DecodedVector::isIdentityMapping` / `isConstantMapping`: identity (dense,
one value per row), constant (single repeated value), or any other
encoding reached through the decode indirection. -/
inductive VectorShape where
  | identity
  | constant
  | generic
  deriving DecidableEq, Repr

/-- A decoded argument column for one kernel call: its shape, the raw
flat-vector read `args[k]->as<FlatVector<T>>()->valueAt(i)` used on the
identity paths, and the decoded read `decodedK->valueAt<T>(i)`. -/
structure DecodedVector (α : Type) where
  shape : VectorShape
  flatValueAt : Nat → α
  valueAt : Nat → α

def DecodedVector.isIdentityMapping {α : Type} (v : DecodedVector α) : Bool :=
  v.shape = .identity

def DecodedVector.isConstantMapping {α : Type} (v : DecodedVector α) : Bool :=
  v.shape = .constant

/-- Well-formedness of a decoded column, the invariants `DecodedVector`
guarantees: when the mapping is the identity, the decoded reads are the
raw flat reads; when the mapping is constant, every decoded read yields
the single repeated value. -/
def DecodedVector.WF {α : Type} (v : DecodedVector α) : Prop :=
  (v.shape = .identity → ∀ i, v.flatValueAt i = v.valueAt i) ∧
  (v.shape = .constant → ∀ i, v.valueAt i = v.valueAt 0)

/-- One write `flatResult->set(i, b)` into the boolean result buffer. -/
def setBit (res : Nat → Bool) (i : Nat) (b : Bool) : Nat → Bool :=
  fun j => if j = i then b else res j

/-- `rows.applyToSelected(body)`: the selection mask is the list of active
row indices, and the body is run once per active index, threading the
result-buffer state. -/
def applyToSelected (rows : List Nat)
    (body : (Nat → Bool) → Nat → (Nat → Bool)) (res : Nat → Bool) :
    Nat → Bool :=
  rows.foldl body res

/-- The boolean flat vector produced by one kernel call: its logical type
(as requested from `ensureWritable`) and its contents. -/
structure FlatBoolVector where
  typ : VType
  values : Nat → Bool

/-- `ComparisonFunction::apply`: decodes both arguments, makes the result
writable as BOOLEAN, then dispatches on the two shapes in the fixed order
identity/identity, identity/constant, constant/identity, generic fallback,
writing `cmp` of the row's two element values at every selected row.
`res` is the result buffer's contents after `ensureWritable`, before the
kernel writes; `outputType` is the parameter the C++ signature receives. -/
def ComparisonFunction.apply {α : Type} (cmp : α → α → Bool)
    (rows : List Nat) (arg0 arg1 : DecodedVector α)
    (outputType : VType) (res : Nat → Bool) : FlatBoolVector :=
  let flatResult : Nat → Bool :=
    if arg0.isIdentityMapping && arg1.isIdentityMapping then
      applyToSelected rows
        (fun r i => setBit r i (cmp (arg0.flatValueAt i) (arg1.flatValueAt i))) res
    else if arg0.isIdentityMapping && arg1.isConstantMapping then
      let constantValue := arg1.valueAt 0
      applyToSelected rows
        (fun r i => setBit r i (cmp (arg0.flatValueAt i) constantValue)) res
    else if arg0.isConstantMapping && arg1.isIdentityMapping then
      let constantValue := arg0.valueAt 0
      applyToSelected rows
        (fun r i => setBit r i (cmp constantValue (arg1.flatValueAt i))) res
    else
      applyToSelected rows
        (fun r i => setBit r i (cmp (arg0.valueAt i) (arg1.valueAt i))) res
  { typ := VType.scalar .BOOLEAN, values := flatResult }

/-- The comparison operator families registered by this file. -/
inductive CmpOp where
  | eq
  | lt
  | gt
  | le
  | ge
  deriving DecidableEq, Repr

/-- Modelled from the spec: the predicate functors `Equal`, `Less`,
`Greater`, `LessOrEqual`, `GreaterOrEqual` come from
`velox/functions/sparksql/Comparisons.h`, which is not among the provided
sources; per the spec, `Cmp` implements the natural total order of the
element type. -/
def cmpEval {α : Type} [LinearOrder α] : CmpOp → α → α → Bool
  | .eq, a, b => decide (a = b)
  | .lt, a, b => decide (a < b)
  | .gt, a, b => decide (b < a)
  | .le, a, b => decide (a ≤ b)
  | .ge, a, b => decide (b ≤ a)

/-- A constructed kernel instance: `ComparisonFunction<Cmp, kind>`
instantiated for one operator family and one element kind. -/
structure CompKernel where
  op : CmpOp
  kind : TypeKind
  deriving DecidableEq, Repr

/-- The kernel's declared capability flag `isDefaultNullBehavior`. -/
def CompKernel.isDefaultNullBehavior (_k : CompKernel) : Bool :=
  true

/-- The kernel's declared capability flag `supportsFlatNoNullsFastPath`. -/
def CompKernel.supportsFlatNoNullsFastPath (_k : CompKernel) : Bool :=
  true

/-- Construction-time failures: `VELOX_CHECK` signature failures and
`VELOX_NYI` unsupported-type failures. -/
inductive VeloxError where
  | checkFail (msg : String)
  | nyi (msg : String)
  deriving DecidableEq, Repr

/-- `makeImpl`: checks `args.size() == 2`, checks every later argument's
type equals the first argument's type by full equality, then switches on
the first argument's kind: each of the twelve enumerated kinds yields a
kernel instantiation; the default case fails with a VELOX_NYI message
naming the function and the offending kind. -/
def makeImpl (op : CmpOp) (functionName : String) (args : List VType) :
    Except VeloxError CompKernel :=
  if args.length = 2 then
    match args with
    | [] => .error (.checkFail "unreachable: empty argument list")
    | t0 :: rest =>
      if rest.all (fun t => t = t0) then
        match t0.kind with
        | .BOOLEAN | .TINYINT | .SMALLINT | .INTEGER | .BIGINT | .HUGEINT
        | .REAL | .DOUBLE | .VARCHAR | .VARBINARY | .TIMESTAMP | .DATE =>
          .ok { op := op, kind := t0.kind }
        | k =>
          .error (.nyi (functionName ++ " does not support arguments of type "
            ++ k.name))
      else
        .error (.checkFail "argument types are not identical")
  else
    .error (.checkFail "args.size() == 2")

def makeEqualTo (functionName : String) (args : List VType) :
    Except VeloxError CompKernel :=
  makeImpl .eq functionName args

def makeLessThan (functionName : String) (args : List VType) :
    Except VeloxError CompKernel :=
  makeImpl .lt functionName args

def makeGreaterThan (functionName : String) (args : List VType) :
    Except VeloxError CompKernel :=
  makeImpl .gt functionName args

def makeLessThanOrEqual (functionName : String) (args : List VType) :
    Except VeloxError CompKernel :=
  makeImpl .le functionName args

def makeGreaterThanOrEqual (functionName : String) (args : List VType) :
    Except VeloxError CompKernel :=
  makeImpl .ge functionName args

/-- The five registered entry points, indexed by operator family. -/
def makeFns : CmpOp → String → List VType → Except VeloxError CompKernel
  | .eq => makeEqualTo
  | .lt => makeLessThan
  | .gt => makeGreaterThan
  | .le => makeLessThanOrEqual
  | .ge => makeGreaterThanOrEqual

/-- The enumerated allow-list of element kinds in the switch of
`makeImpl`, in source order. -/
def supportedKinds : List TypeKind :=
  [.BOOLEAN, .TINYINT, .SMALLINT, .INTEGER, .BIGINT, .HUGEINT,
   .REAL, .DOUBLE, .VARCHAR, .VARBINARY, .TIMESTAMP, .DATE]

/-- The four execution strategies of `apply`, named. -/
inductive DispatchPath where
  | identityIdentity
  | identityConstant
  | constantIdentity
  | generic
  deriving DecidableEq, Repr

/-- The shape checks of `apply` in their source order; the first matching
case wins, and every remaining combination falls to the generic path. -/
def classifyShapes (s0 s1 : VectorShape) : DispatchPath :=
  if s0 = .identity && s1 = .identity then .identityIdentity
  else if s0 = .identity && s1 = .constant then .identityConstant
  else if s0 = .constant && s1 = .identity then .constantIdentity
  else .generic

/-- Each execution strategy of `apply` in isolation, reading the columns
exactly as the corresponding branch of the source does. -/
def applyOnPath {α : Type} (p : DispatchPath) (cmp : α → α → Bool)
    (rows : List Nat) (d0 d1 : DecodedVector α) (res : Nat → Bool) :
    Nat → Bool :=
  match p with
  | .identityIdentity =>
    applyToSelected rows
      (fun r i => setBit r i (cmp (d0.flatValueAt i) (d1.flatValueAt i))) res
  | .identityConstant =>
    applyToSelected rows
      (fun r i => setBit r i (cmp (d0.flatValueAt i) (d1.valueAt 0))) res
  | .constantIdentity =>
    applyToSelected rows
      (fun r i => setBit r i (cmp (d0.valueAt 0) (d1.flatValueAt i))) res
  | .generic =>
    applyToSelected rows
      (fun r i => setBit r i (cmp (d0.valueAt i) (d1.valueAt i))) res

/-- Concrete identity-mapped integer column `[1, 5, 9]`. -/
def flat159 : DecodedVector Int :=
  { shape := .identity,
    flatValueAt := fun i => [1, 5, 9].getD i 0,
    valueAt := fun i => [1, 5, 9].getD i 0 }

/-- Concrete constant integer column repeating `5`. -/
def const5 : DecodedVector Int :=
  { shape := .constant, flatValueAt := fun _ => 5, valueAt := fun _ => 5 }

/-- Generic-encoded column decoding to `[1, 5, 9]`; its raw flat reads are
garbage, as they would be for a dictionary-coded vector. -/
def gen159 : DecodedVector Int :=
  { shape := .generic,
    flatValueAt := fun _ => 0,
    valueAt := fun i => [1, 5, 9].getD i 0 }

/-- Generic-encoded column decoding to the constant `5`. -/
def gen5 : DecodedVector Int :=
  { shape := .generic, flatValueAt := fun _ => 0, valueAt := fun _ => 5 }

theorem flat159_wf : flat159.WF :=
  ⟨fun _ _ => rfl, fun h => absurd h (by decide)⟩

theorem const5_wf : const5.WF :=
  ⟨fun h => absurd h (by decide), fun _ _ => rfl⟩

theorem gen159_wf : gen159.WF :=
  ⟨fun h => absurd h (by decide), fun h => absurd h (by decide)⟩

theorem gen5_wf : gen5.WF :=
  ⟨fun h => absurd h (by decide), fun h => absurd h (by decide)⟩

/-- A write loop over the mask leaves every row outside the mask with the
buffer's prior contents. -/
theorem applyToSelected_not_mem (f : Nat → Bool) {rows : List Nat}
    {res : Nat → Bool} {j : Nat} (hj : j ∉ rows) :
    applyToSelected rows (fun r i => setBit r i (f i)) res j = res j := by
  induction rows generalizing res with
  | nil => rfl
  | cons a t ih =>
    have hja : j ≠ a := fun h => hj (h ▸ List.mem_cons_self a t)
    have hjt : j ∉ t := fun h => hj (List.mem_cons_of_mem a h)
    show applyToSelected t _ (setBit res a (f a)) j = res j
    rw [ih hjt]
    simp [setBit, hja]

/-- A write loop over the mask sets every active row to the value the body
computes for that row (the written value depends only on the row index). -/
theorem applyToSelected_mem (f : Nat → Bool) {rows : List Nat}
    {res : Nat → Bool} {i : Nat} (hi : i ∈ rows) :
    applyToSelected rows (fun r j => setBit r j (f j)) res i = f i := by
  induction rows generalizing res with
  | nil => cases hi
  | cons a t ih =>
    show applyToSelected t _ (setBit res a (f a)) i = f i
    by_cases ht : i ∈ t
    · exact ih ht
    · have hia : i = a := by
        rcases List.mem_cons.mp hi with h | h
        · exact h
        · exact absurd h ht
      rw [applyToSelected_not_mem f ht]
      simp [setBit, hia]

/-- Workhorse: on well-formed decoded arguments, whichever of the four
shape paths the kernel takes, the result at every active row is the
comparison of the two decoded element values at that row. -/
theorem apply_values_at {α : Type} (cmp : α → α → Bool)
    (rows : List Nat) (d0 d1 : DecodedVector α) (o : VType)
    (res : Nat → Bool) (h0 : d0.WF) (h1 : d1.WF) {i : Nat} (hi : i ∈ rows) :
    (ComparisonFunction.apply cmp rows d0 d1 o res).values i
      = cmp (d0.valueAt i) (d1.valueAt i) := by
  obtain ⟨h0f, h0c⟩ := h0
  obtain ⟨h1f, h1c⟩ := h1
  cases hs0 : d0.shape <;> cases hs1 : d1.shape <;>
    simp only [ComparisonFunction.apply, DecodedVector.isIdentityMapping,
      DecodedVector.isConstantMapping, hs0, hs1, decide_True, decide_False,
      Bool.true_and, Bool.false_and, Bool.and_true, Bool.and_false,
      if_true, if_false, Bool.and_self, reduceCtorEq] <;>
    rw [applyToSelected_mem _ hi]
  · rw [h0f hs0 i, h1f hs1 i]
  · rw [h0f hs0 i, h1c hs1 i]
  · rw [h0c hs0 i, h1f hs1 i]

/-- Frame part of the workhorse: the kernel never writes a row outside the
mask, so such rows keep the buffer's pre-call contents. -/
theorem apply_values_not_mem {α : Type} (cmp : α → α → Bool)
    (rows : List Nat) (d0 d1 : DecodedVector α) (o : VType)
    (res : Nat → Bool) {j : Nat} (hj : j ∉ rows) :
    (ComparisonFunction.apply cmp rows d0 d1 o res).values j = res j := by
  unfold ComparisonFunction.apply
  dsimp only
  split
  · exact applyToSelected_not_mem _ hj
  · split
    · exact applyToSelected_not_mem _ hj
    · split
      · exact applyToSelected_not_mem _ hj
      · exact applyToSelected_not_mem _ hj

/-- Signature failures of `makeImpl`: a wrong argument count, or two
non-identical argument types, yield a VELOX_CHECK failure for every
operator family. -/
theorem makeImpl_signature_error (op : CmpOp) (name : String)
    (args : List VType)
    (h : args.length ≠ 2 ∨ ∃ t0 t1, args = [t0, t1] ∧ t0 ≠ t1) :
    ∃ msg, makeImpl op name args = Except.error (.checkFail msg) := by
  rcases h with hlen | ⟨t0, t1, rfl, hne⟩
  · exact ⟨"args.size() == 2", by simp [makeImpl, hlen]⟩
  · have h' : ¬(t1 = t0) := fun e => hne e.symm
    exact ⟨"argument types are not identical", by simp [makeImpl, h']⟩

/-- Claim C1: with a selection mask, two well-formed decoded argument
columns of the element type, and a writable result buffer, the boolean
result at every active row `i` is `cmp` applied to the two decoded element
values at `i`; at every row outside the mask no value is guaranteed — the
result merely retains whatever the buffer held before the call, for every
possible prior contents `res`. -/
theorem comparison_apply_correct {α : Type} (cmp : α → α → Bool)
    (rows : List Nat) (d0 d1 : DecodedVector α) (o : VType)
    (res : Nat → Bool) (h0 : d0.WF) (h1 : d1.WF) :
    (∀ i ∈ rows,
      (ComparisonFunction.apply cmp rows d0 d1 o res).values i
        = cmp (d0.valueAt i) (d1.valueAt i)) ∧
    (∀ j, j ∉ rows →
      (ComparisonFunction.apply cmp rows d0 d1 o res).values j = res j) :=
  ⟨fun _ hi => apply_values_at cmp rows d0 d1 o res h0 h1 hi,
   fun _ hj => apply_values_not_mem cmp rows d0 d1 o res hj⟩

theorem comparison_apply_correct_witness :
    flat159.WF ∧ const5.WF ∧
    (ComparisonFunction.apply (fun a b : Int => decide (a ≤ b)) [0, 1, 2]
        flat159 const5 (VType.scalar .BOOLEAN) (fun _ => false)).values 1
      = decide ((5 : Int) ≤ 5) :=
  ⟨flat159_wf, const5_wf,
   (comparison_apply_correct (fun a b : Int => decide (a ≤ b)) [0, 1, 2]
      flat159 const5 (VType.scalar .BOOLEAN) (fun _ => false)
      flat159_wf const5_wf).1 1 (by decide)⟩

/-- Claim C2: on the same logical contents (equal decoded values at every
active row), the kernel's output at every active row is the value the
generic decode fallback computes, and two calls whose arguments agree
logically on the active rows — whatever their shapes, hence whichever of
the four classification paths each call takes — produce identical results
at every active row. -/
theorem comparison_paths_agree {α : Type} (cmp : α → α → Bool)
    (rows : List Nat) (d0 d1 d0' d1' : DecodedVector α) (o o' : VType)
    (res res' : Nat → Bool)
    (h0 : d0.WF) (h1 : d1.WF) (h0' : d0'.WF) (h1' : d1'.WF)
    (e0 : ∀ i ∈ rows, d0.valueAt i = d0'.valueAt i)
    (e1 : ∀ i ∈ rows, d1.valueAt i = d1'.valueAt i) :
    ∀ i ∈ rows,
      ((ComparisonFunction.apply cmp rows d0 d1 o res).values i
        = applyOnPath .generic cmp rows d0 d1 res i) ∧
      ((ComparisonFunction.apply cmp rows d0 d1 o res).values i
        = (ComparisonFunction.apply cmp rows d0' d1' o' res').values i) := by
  intro i hi
  constructor
  · exact (apply_values_at cmp rows d0 d1 o res h0 h1 hi).trans
      (applyToSelected_mem (fun j => cmp (d0.valueAt j) (d1.valueAt j)) hi).symm
  · rw [apply_values_at cmp rows d0 d1 o res h0 h1 hi,
      apply_values_at cmp rows d0' d1' o' res' h0' h1' hi,
      e0 i hi, e1 i hi]

theorem comparison_paths_agree_witness :
    flat159.WF ∧ const5.WF ∧ gen159.WF ∧ gen5.WF ∧
    ((ComparisonFunction.apply (fun a b : Int => decide (a < b)) [0, 1, 2]
        flat159 const5 (VType.scalar .BOOLEAN) (fun _ => false)).values 2
      = (ComparisonFunction.apply (fun a b : Int => decide (a < b)) [0, 1, 2]
          gen159 gen5 (VType.scalar .DOUBLE) (fun _ => true)).values 2) :=
  ⟨flat159_wf, const5_wf, gen159_wf, gen5_wf,
   (comparison_paths_agree (fun a b : Int => decide (a < b)) [0, 1, 2]
      flat159 const5 gen159 gen5 (VType.scalar .BOOLEAN) (VType.scalar .DOUBLE)
      (fun _ => false) (fun _ => true)
      flat159_wf const5_wf gen159_wf gen5_wf
      (fun i hi => by fin_cases hi <;> rfl)
      (fun i hi => by fin_cases hi <;> rfl) 2 (by decide)).2⟩

/-- Claim C3: for every operator family, construction fails with a
signature (VELOX_CHECK) error when the argument count is not 2 or when the
two argument types are not identical under full type equality; the failure
is the construction call's result, so no kernel exists and no row is ever
processed. -/
theorem comparison_make_signature_error (name : String) (args : List VType)
    (h : args.length ≠ 2 ∨ ∃ t0 t1, args = [t0, t1] ∧ t0 ≠ t1) :
    ∀ op : CmpOp,
      ∃ msg, makeFns op name args = Except.error (.checkFail msg) := by
  intro op
  cases op <;> exact makeImpl_signature_error _ name args h

theorem comparison_make_signature_error_witness :
    ([VType.scalar .ARRAY, VType.scalar .INTEGER] ≠
        ([] : List VType) ∧
      VType.scalar (TypeKind.ARRAY) ≠ VType.scalar .INTEGER) ∧
    ∃ msg, makeFns .eq "equalto"
        [VType.scalar .ARRAY, VType.scalar .INTEGER]
      = Except.error (.checkFail msg) :=
  ⟨⟨by decide, by decide⟩,
   comparison_make_signature_error "equalto"
      [VType.scalar .ARRAY, VType.scalar .INTEGER]
      (Or.inr ⟨VType.scalar .ARRAY, VType.scalar .INTEGER, rfl, by decide⟩)
      .eq⟩

/-- Claim C4: for every operator family, construction on two identical
argument types succeeds exactly when the element kind is in the enumerated
allow-list of the switch; for a kind outside the list it fails, at
construction time, with a not-supported error whose message names the
operator (via its function name) and the offending type's kind. -/
theorem comparison_make_allowlist (op : CmpOp) (name : String) (t : VType) :
    (t.kind ∈ supportedKinds →
      makeFns op name [t, t] = Except.ok { op := op, kind := t.kind }) ∧
    (t.kind ∉ supportedKinds →
      makeFns op name [t, t] = Except.error (.nyi
        (name ++ " does not support arguments of type " ++ t.kind.name))) := by
  have hform : makeFns op name [t, t] = makeImpl op name [t, t] := by
    cases op <;> rfl
  have hmk : makeImpl op name [t, t] =
      (match t.kind with
       | .BOOLEAN | .TINYINT | .SMALLINT | .INTEGER | .BIGINT | .HUGEINT
       | .REAL | .DOUBLE | .VARCHAR | .VARBINARY | .TIMESTAMP | .DATE =>
         Except.ok { op := op, kind := t.kind }
       | k =>
         Except.error (.nyi (name ++ " does not support arguments of type "
           ++ k.name))) := by
    simp [makeImpl]
  rw [hform, hmk]
  generalize t.kind = k
  cases k
  all_goals constructor
  all_goals intro h
  all_goals first
    | rfl
    | exact absurd h (by decide)

theorem comparison_make_allowlist_witness :
    ((VType.scalar .INTEGER).kind ∈ supportedKinds ∧
      makeFns .eq "equalto" [VType.scalar .INTEGER, VType.scalar .INTEGER]
        = Except.ok { op := CmpOp.eq, kind := TypeKind.INTEGER }) ∧
    ((VType.scalar .MAP).kind ∉ supportedKinds ∧
      makeFns .lt "lessthan" [VType.scalar .MAP, VType.scalar .MAP]
        = Except.error (.nyi
            ("lessthan" ++ " does not support arguments of type "
              ++ (VType.scalar .MAP).kind.name))) :=
  ⟨⟨by decide,
    (comparison_make_allowlist .eq "equalto" (VType.scalar .INTEGER)).1
      (by decide)⟩,
   ⟨by decide,
    (comparison_make_allowlist .lt "lessthan" (VType.scalar .MAP)).2
      (by decide)⟩⟩

/-- Claim C5: the kernel's per-call strategy is exactly the one selected
by the shape checks in their fixed source order (identity/identity, then
identity/constant, then constant/identity, then the generic fallback for
every remaining combination), with the first matching case executed; and
on the constant/identity path the constant is the left operand of the
comparison at every active row. -/
theorem comparison_dispatch_order {α : Type} (cmp : α → α → Bool)
    (rows : List Nat) (d0 d1 : DecodedVector α) (o : VType)
    (res : Nat → Bool) :
    ((ComparisonFunction.apply cmp rows d0 d1 o res).values
      = applyOnPath (classifyShapes d0.shape d1.shape) cmp rows d0 d1 res) ∧
    (d0.shape = .constant → d1.shape = .identity → d1.WF →
      ∀ i ∈ rows,
        (ComparisonFunction.apply cmp rows d0 d1 o res).values i
          = cmp (d0.valueAt 0) (d1.valueAt i)) := by
  constructor
  · cases hs0 : d0.shape <;> cases hs1 : d1.shape <;>
      simp [ComparisonFunction.apply, classifyShapes, applyOnPath,
        DecodedVector.isIdentityMapping, DecodedVector.isConstantMapping,
        hs0, hs1]
  · intro hc hi hwf i him
    simp only [ComparisonFunction.apply, DecodedVector.isIdentityMapping,
      DecodedVector.isConstantMapping, hc, hi, decide_True, decide_False,
      Bool.true_and, Bool.false_and, Bool.and_true, Bool.and_false,
      if_true, if_false, reduceCtorEq]
    rw [applyToSelected_mem _ him, hwf.1 hi i]

theorem comparison_dispatch_order_witness :
    (const5.shape = .constant ∧ flat159.shape = .identity ∧ flat159.WF ∧
      (2 : Nat) ∈ [0, 1, 2] ∧
      (ComparisonFunction.apply (fun a b : Int => decide (a ≤ b)) [0, 1, 2]
          const5 flat159 (VType.scalar .BOOLEAN) (fun _ => false)).values 2
        = decide ((5 : Int) ≤ 9)) ∧
    (ComparisonFunction.apply (fun a b : Int => decide (a ≤ b)) [0, 1, 2]
        const5 flat159 (VType.scalar .BOOLEAN) (fun _ => false)).values
      = applyOnPath (classifyShapes const5.shape flat159.shape)
          (fun a b : Int => decide (a ≤ b)) [0, 1, 2] const5 flat159
          (fun _ => false) :=
  ⟨⟨rfl, rfl, flat159_wf, by decide,
    (comparison_dispatch_order (fun a b : Int => decide (a ≤ b)) [0, 1, 2]
        const5 flat159 (VType.scalar .BOOLEAN) (fun _ => false)).2
      rfl rfl flat159_wf 2 (by decide)⟩,
   (comparison_dispatch_order (fun a b : Int => decide (a ≤ b)) [0, 1, 2]
      const5 flat159 (VType.scalar .BOOLEAN) (fun _ => false)).1⟩

/-- Claim C6: at every active row, on well-formed arguments of a linearly
ordered element type — whatever the two shapes, hence on every
classification path — the equal kernel is symmetric in its two argument
columns, the less kernel with arguments swapped is the greater kernel, and
exactly one of the less / equal / greater kernels' results holds. -/
theorem comparison_order_algebra {α : Type} [LinearOrder α]
    (rows : List Nat) (d0 d1 : DecodedVector α) (o : VType)
    (res : Nat → Bool) (h0 : d0.WF) (h1 : d1.WF) (i : Nat)
    (hi : i ∈ rows) :
    ((ComparisonFunction.apply (cmpEval .eq) rows d0 d1 o res).values i
      = (ComparisonFunction.apply (cmpEval .eq) rows d1 d0 o res).values i) ∧
    ((ComparisonFunction.apply (cmpEval .lt) rows d0 d1 o res).values i
      = (ComparisonFunction.apply (cmpEval .gt) rows d1 d0 o res).values i) ∧
    (((ComparisonFunction.apply (cmpEval .lt) rows d0 d1 o res).values i = true ∧
      (ComparisonFunction.apply (cmpEval .eq) rows d0 d1 o res).values i = false ∧
      (ComparisonFunction.apply (cmpEval .gt) rows d0 d1 o res).values i = false) ∨
     ((ComparisonFunction.apply (cmpEval .lt) rows d0 d1 o res).values i = false ∧
      (ComparisonFunction.apply (cmpEval .eq) rows d0 d1 o res).values i = true ∧
      (ComparisonFunction.apply (cmpEval .gt) rows d0 d1 o res).values i = false) ∨
     ((ComparisonFunction.apply (cmpEval .lt) rows d0 d1 o res).values i = false ∧
      (ComparisonFunction.apply (cmpEval .eq) rows d0 d1 o res).values i = false ∧
      (ComparisonFunction.apply (cmpEval .gt) rows d0 d1 o res).values i = true)) := by
  rw [apply_values_at (cmpEval .eq) rows d0 d1 o res h0 h1 hi,
    apply_values_at (cmpEval .eq) rows d1 d0 o res h1 h0 hi,
    apply_values_at (cmpEval .lt) rows d0 d1 o res h0 h1 hi,
    apply_values_at (cmpEval .gt) rows d1 d0 o res h1 h0 hi,
    apply_values_at (cmpEval .gt) rows d0 d1 o res h0 h1 hi]
  refine ⟨decide_eq_decide.mpr eq_comm, rfl, ?_⟩
  rcases lt_trichotomy (d0.valueAt i) (d1.valueAt i) with h | h | h
  · exact Or.inl ⟨by simp [cmpEval, h], by simp [cmpEval, h.ne],
      by simp [cmpEval, h.asymm]⟩
  · exact Or.inr (Or.inl ⟨by simp [cmpEval, h], by simp [cmpEval, h],
      by simp [cmpEval, h]⟩)
  · exact Or.inr (Or.inr ⟨by simp [cmpEval, h.asymm],
      by simp [cmpEval, h.ne'], by simp [cmpEval, h]⟩)

theorem comparison_order_algebra_witness :
    flat159.WF ∧ const5.WF ∧ (0 : Nat) ∈ [0, 1, 2] ∧
    ((ComparisonFunction.apply (cmpEval .eq) [0, 1, 2] flat159 const5
        (VType.scalar .BOOLEAN) (fun _ => false)).values 0
      = (ComparisonFunction.apply (cmpEval .eq) [0, 1, 2] const5 flat159
          (VType.scalar .BOOLEAN) (fun _ => false)).values 0) :=
  ⟨flat159_wf, const5_wf, by decide,
   (comparison_order_algebra [0, 1, 2] flat159 const5
      (VType.scalar .BOOLEAN) (fun _ => false) flat159_wf const5_wf 0
      (by decide)).1⟩

/-- Claim C7: the kernel only writes into the supplied result buffer at
active rows — every row outside the mask keeps its pre-call contents — and
input data outside the mask is never observable: two calls whose argument
columns have the same shapes and agree (in both their raw flat reads and
their decoded reads) on every active row produce identical results at
every active row, whatever the two inputs hold elsewhere and whatever the
two result buffers held beforehand. Input columns are read-only values in
the model, so their immutability holds by construction. -/
theorem comparison_frame {α : Type} (cmp : α → α → Bool) (rows : List Nat)
    (d0 d1 d0' d1' : DecodedVector α) (o o' : VType) (res res' : Nat → Bool)
    (h0 : d0.WF) (h1 : d1.WF) (h0' : d0'.WF) (h1' : d1'.WF)
    (hs0 : d0.shape = d0'.shape) (hs1 : d1.shape = d1'.shape)
    (e0 : ∀ i ∈ rows, d0.valueAt i = d0'.valueAt i ∧
      d0.flatValueAt i = d0'.flatValueAt i)
    (e1 : ∀ i ∈ rows, d1.valueAt i = d1'.valueAt i ∧
      d1.flatValueAt i = d1'.flatValueAt i) :
    (∀ j, j ∉ rows →
      (ComparisonFunction.apply cmp rows d0 d1 o res).values j = res j) ∧
    (∀ i ∈ rows,
      (ComparisonFunction.apply cmp rows d0 d1 o res).values i
        = (ComparisonFunction.apply cmp rows d0' d1' o' res').values i) := by
  refine ⟨fun _ hj => apply_values_not_mem cmp rows d0 d1 o res hj, ?_⟩
  intro i hi
  rw [apply_values_at cmp rows d0 d1 o res h0 h1 hi,
    apply_values_at cmp rows d0' d1' o' res' h0' h1' hi,
    (e0 i hi).1, (e1 i hi).1]

/-- Identity column `[1, 5, 9]` with different garbage outside the mask
`{0, 2}` (row 1 reads `5` only inside the mask in `flat159`, here too, but
rows ≥ 3 differ). -/
def flat159Alt : DecodedVector Int :=
  { shape := .identity,
    flatValueAt := fun i => [1, 5, 9, 42].getD i 7,
    valueAt := fun i => [1, 5, 9, 42].getD i 7 }

theorem flat159Alt_wf : flat159Alt.WF :=
  ⟨fun _ _ => rfl, fun h => absurd h (by decide)⟩

theorem comparison_frame_witness :
    flat159.WF ∧ const5.WF ∧ flat159Alt.WF ∧
    flat159.shape = flat159Alt.shape ∧
    ((ComparisonFunction.apply (fun a b : Int => decide (a = b)) [0, 1, 2]
        flat159 const5 (VType.scalar .BOOLEAN) (fun _ => false)).values 5
      = false) ∧
    ((ComparisonFunction.apply (fun a b : Int => decide (a = b)) [0, 1, 2]
        flat159 const5 (VType.scalar .BOOLEAN) (fun _ => false)).values 1
      = (ComparisonFunction.apply (fun a b : Int => decide (a = b)) [0, 1, 2]
          flat159Alt const5 (VType.scalar .BOOLEAN) (fun _ => true)).values 1) := by
  have h := comparison_frame (fun a b : Int => decide (a = b)) [0, 1, 2]
    flat159 const5 flat159Alt const5 (VType.scalar .BOOLEAN)
    (VType.scalar .BOOLEAN) (fun _ => false) (fun _ => true)
    flat159_wf const5_wf flat159Alt_wf const5_wf rfl rfl
    (fun i hi => by fin_cases hi <;> exact ⟨rfl, rfl⟩)
    (fun i hi => ⟨rfl, rfl⟩)
  exact ⟨flat159_wf, const5_wf, flat159Alt_wf, rfl,
    h.1 5 (by decide), h.2 1 (by decide)⟩

/-- Claim C8: the less-or-equal kernel on the identity integer column
`[1, 5, 9]` against the constant column `5`, with all three rows selected,
produces `[true, true, false]`; the scenario's kernel is the one
`makeLessThanOrEqual` constructs for a BIGINT signature. -/
theorem comparison_scenario_le :
    flat159.shape = .identity ∧ const5.shape = .constant ∧
    ((ComparisonFunction.apply (cmpEval .le) [0, 1, 2] flat159 const5
        (VType.scalar .BOOLEAN) (fun _ => false)).values 0 = true) ∧
    ((ComparisonFunction.apply (cmpEval .le) [0, 1, 2] flat159 const5
        (VType.scalar .BOOLEAN) (fun _ => false)).values 1 = true) ∧
    ((ComparisonFunction.apply (cmpEval .le) [0, 1, 2] flat159 const5
        (VType.scalar .BOOLEAN) (fun _ => false)).values 2 = false) ∧
    makeLessThanOrEqual "lte" [VType.scalar .BIGINT, VType.scalar .BIGINT]
      = Except.ok { op := CmpOp.le, kind := TypeKind.BIGINT } := by
  refine ⟨rfl, rfl, ?_, ?_, ?_, rfl⟩ <;> decide

/-- Claim C9: every kernel instance that construction returns — for every
operator family, function name, and argument list construction accepts —
declares default null-propagation behavior and declares support for the
flat-no-nulls fast path. -/
theorem comparison_capability_flags (op : CmpOp) (name : String)
    (args : List VType) (k : CompKernel)
    (h : makeFns op name args = Except.ok k) :
    k.isDefaultNullBehavior = true ∧ k.supportsFlatNoNullsFastPath = true :=
  ⟨rfl, rfl⟩

theorem comparison_capability_flags_witness :
    makeFns .ge "gte" [VType.scalar .DOUBLE, VType.scalar .DOUBLE]
      = Except.ok { op := CmpOp.ge, kind := TypeKind.DOUBLE } ∧
    CompKernel.isDefaultNullBehavior { op := CmpOp.ge, kind := TypeKind.DOUBLE }
      = true ∧
    CompKernel.supportsFlatNoNullsFastPath
        { op := CmpOp.ge, kind := TypeKind.DOUBLE }
      = true :=
  ⟨rfl,
   comparison_capability_flags .ge "gte"
     [VType.scalar .DOUBLE, VType.scalar .DOUBLE]
     { op := CmpOp.ge, kind := TypeKind.DOUBLE } rfl⟩

/-- Claim C10: the `outputType` argument of `apply` is ignored — the
result is always made writable as a BOOLEAN flat vector, and two calls
differing only in `outputType` return identical result vectors (hence
identical values at every row, active or not). -/
theorem comparison_outputType_ignored {α : Type} (cmp : α → α → Bool)
    (rows : List Nat) (d0 d1 : DecodedVector α) (o1 o2 : VType)
    (res : Nat → Bool) :
    ComparisonFunction.apply cmp rows d0 d1 o1 res
      = ComparisonFunction.apply cmp rows d0 d1 o2 res ∧
    (ComparisonFunction.apply cmp rows d0 d1 o1 res).typ
      = VType.scalar .BOOLEAN :=
  ⟨rfl, rfl⟩

end Velox
